import Mathlib

/-!
Verification development for the rock-os-tools image construction and
integration verification engine.

The Go sources are shallowly embedded:
- Go strings are modelled as Lean `String` (a wrapper around `List Char`);
  `strings.Contains`, `strings.HasPrefix`, `strings.TrimPrefix` and
  `strings.Split` are modelled character-exactly below.
- The staged rootfs tree and the library filesystem are modelled as explicit
  lists of entries; `os.Stat`/`os.Lstat` become lookups in those lists
  (symlink entries are assumed non-dangling, so `Stat` succeeds exactly when
  the path is present).
- `filepath.Join dir name` for a cleaned `dir` without a trailing slash is
  `dir ++ "/" ++ name`; joining a root onto an absolute path `/p` appends
  the cleaned `/p` directly.  Since `filepath.Join root p` is injective in
  `p` for a fixed root, a staged tree is keyed by the slash-trimmed path
  relative to the rootfs directory.
- `os.Getenv` becomes an explicit environment `String → String` returning
  `""` for unset variables, exactly as in Go.
-/

namespace RockOS

/-- Model of Go `strings.Contains s sub`: `sub` occurs contiguously in `s`. -/
def goContains (s sub : String) : Bool := decide (sub.data <:+: s.data)

/-- Model of Go `strings.HasPrefix s pre`. -/
def goStartsWith (s pre : String) : Bool := pre.data.isPrefixOf s.data

/-- Model of Go `strings.TrimPrefix s pre`: removes one leading copy of `pre`
when present, otherwise returns `s` unchanged. -/
def goTrimLeading (s pre : String) : String :=
  if goStartsWith s pre then ⟨s.data.drop pre.data.length⟩ else s

/-- Model of Go `strings.Split s sep` for a one-character separator. -/
def goSplit (s : String) (sep : Char) : List String :=
  (s.data.splitOn sep).map (fun cs => ⟨cs⟩)

/-- Model of Go `filepath.Join dir name` for a cleaned `dir` (no trailing
slash) and a bare relative `name`. -/
def goJoin (dir name : String) : String := dir ++ "/" ++ name

/-- Model of Go `filepath.Join root abs` where `abs` begins with a slash
(`filepath.Join "/sr" "/lib" = "/sr/lib"`), for a cleaned `root`. -/
def goJoinAbs (root abs : String) : String := root ++ abs

/-! The integration contract (pkg/integration, contract constants). -/

/-- RockInitPath: where rock-init must be renamed to. -/
def RockInitPath : String := "/sbin/init"

/-- RockManagerPath: hardcoded in rock-init. -/
def RockManagerPath : String := "/usr/bin/rock-manager"

/-- VolcanoAgentPath: hardcoded in rock-init. -/
def VolcanoAgentPath : String := "/usr/bin/volcano-agent"

/-- BusyboxPath: standard location for busybox. -/
def BusyboxPath : String := "/bin/busybox"

/-- ShellPath: must be a symlink to busybox. -/
def ShellPath : String := "/bin/sh"

/-- KernelCmdlineInit: the correct kernel parameter
(must use "init=" NOT "rdinit="). -/
def KernelCmdlineInit : String := "init=/sbin/init"

/-- RequiredDirectories: directories that must exist in the initramfs. -/
def RequiredDirectories : List String :=
  ["/proc", "/sys", "/dev", "/tmp", "/run", "/var/log", "/sbin", "/bin",
   "/usr/bin", "/config", "/etc/rock"]

/-- BinaryMapping: how binaries should be placed. -/
structure BinaryMapping where
  Source : String
  Destination : String
  Permissions : Nat
deriving DecidableEq

/-- RequiredBinaries: the mandatory binary mappings. -/
def RequiredBinaries : List BinaryMapping :=
  [⟨"rock-init", RockInitPath, 0o755⟩,
   ⟨"rock-manager", RockManagerPath, 0o755⟩,
   ⟨"volcano-agent", VolcanoAgentPath, 0o755⟩,
   ⟨"busybox", BusyboxPath, 0o755⟩]

/-- BusyboxSymlinks: the required symlinks to busybox. -/
def BusyboxSymlinks : List String :=
  ["sh", "ls", "cat", "echo", "mount", "umount", "mkdir", "rm", "cp", "mv",
   "chmod", "chown", "sleep", "test", "[", "[["]

/-- DeviceNode: a required device node. -/
structure DeviceNode where
  Path : String
  Mode : Nat
  Major : Nat
  Minor : Nat
deriving DecidableEq

/-- RequiredDeviceNodes: device nodes that must be created. -/
def RequiredDeviceNodes : List DeviceNode :=
  [⟨"/dev/null", 0o666, 1, 3⟩, ⟨"/dev/zero", 0o666, 1, 5⟩,
   ⟨"/dev/random", 0o666, 1, 8⟩, ⟨"/dev/urandom", 0o666, 1, 9⟩,
   ⟨"/dev/tty", 0o666, 5, 0⟩, ⟨"/dev/console", 0o620, 5, 1⟩,
   ⟨"/dev/ptmx", 0o666, 5, 2⟩]

/-! Filesystem view of a staged rootfs tree.  Each node is keyed by its
slash-trimmed path relative to the rootfs directory (so the contract
destination "/sbin/init" is looked up under the key "sbin/init", which is
what `filepath.Join rootfsPath dest` resolves to). -/

/-- One node of a staged rootfs tree (or of an extraction scratch
directory). -/
structure FSEntry where
  path : String
  isDir : Bool := false
  isSymlink : Bool := false
  linkTarget : String := ""
deriving DecidableEq

/-- A staged tree is the list of its nodes. -/
abbrev Rootfs := List FSEntry

/-- Model of `os.Stat` success at a path (symlinks assumed non-dangling). -/
def statExists (fs : Rootfs) (p : String) : Bool :=
  fs.any (fun e => e.path == p)

/-- Model of `os.Stat` success with `info.IsDir()`. -/
def statIsDir (fs : Rootfs) (p : String) : Bool :=
  fs.any (fun e => e.path == p && e.isDir)

/-- Model of `os.Lstat`: the entry at a path, if present. -/
def lstatFind (fs : Rootfs) (p : String) : Option FSEntry :=
  fs.find? (fun e => e.path == p)

/-! Model of pkg/integration/verify.go. -/

/-- VerificationError: details about a verification failure. -/
structure VerificationError where
  Path : String
  Reason : String
  Details : String
deriving DecidableEq

/-- VerificationResult: result of an integration verification.  `Success`
starts true and is set false whenever a critical error is appended, so it
equals "the error list is empty". -/
structure VerificationResult where
  Success : Bool
  Errors : List VerificationError
  Warnings : List String
deriving DecidableEq

/-- Model of `VerifyRootfs rootfsPath` from pkg/integration/verify.go: checks
required binaries and the shell (critical errors), then required directories
and device nodes (warnings only), in source order. -/
def VerifyRootfs (fs : Rootfs) : VerificationResult :=
  let binErrs :=
    (RequiredBinaries.filter
      (fun b => !statExists fs (goTrimLeading b.Destination "/"))).map
      (fun b => { Path := b.Destination,
                  Reason := b.Source ++ " must be at this exact location",
                  Details := "This path is hardcoded in rock-init" })
  let shellErrs :=
    if !statExists fs (goTrimLeading ShellPath "/") then
      [{ Path := ShellPath,
         Reason := "Shell is required for rock-init",
         Details := "Must be a symlink to busybox" }]
    else []
  let dirWarns :=
    (RequiredDirectories.filter
      (fun d => !statExists fs (goTrimLeading d "/"))).map
      (fun d => "Missing directory: " ++ d)
  let devWarns :=
    if statIsDir fs "dev" then
      (RequiredDeviceNodes.filter
        (fun n => !statExists fs (goTrimLeading n.Path "/"))).map
        (fun n => "Missing device node: " ++ n.Path)
    else []
  { Success := binErrs.isEmpty && shellErrs.isEmpty,
    Errors := binErrs ++ shellErrs,
    Warnings := dirWarns ++ devWarns }

/-- The file-name map built by `VerifyImage`: every archive header name is
inserted both verbatim and with a single leading "." trimmed
("Normalize path (remove leading ./)").  The map-to-`true` is modelled as
the list of inserted keys. -/
def imageFiles (names : List String) : List String :=
  names.flatMap (fun n => [n, goTrimLeading n "."])

/-- Model of `checkPathExists` from pkg/integration/verify.go: a contract
path is satisfied by the exact name, the name without its leading slash, or
the name with a leading "." prepended. -/
def checkPathExists (files : List String) (path : String) : Bool :=
  files.contains path || files.contains (goTrimLeading path "/") ||
    files.contains ("." ++ path)

/-- Model of `VerifyImage` from pkg/integration/verify.go, applied to the
archive's entry names: required binaries (critical), busybox symlinks
(warnings), then the shell (critical), in source order. -/
def VerifyImage (names : List String) : VerificationResult :=
  let files := imageFiles names
  let binErrs :=
    (RequiredBinaries.filter
      (fun b => !checkPathExists files b.Destination)).map
      (fun b => { Path := b.Destination,
                  Reason := b.Source ++ " must be at this exact location",
                  Details := "This path is hardcoded in rock-init" })
  let symWarns :=
    (BusyboxSymlinks.filter
      (fun s => !checkPathExists files (goJoin "/bin" s))).map
      (fun s => "Missing busybox symlink: " ++ goJoin "/bin" s)
  let shellErrs :=
    if !checkPathExists files ShellPath then
      [{ Path := ShellPath,
         Reason := "Shell is required for rock-init",
         Details := "Must be a symlink to busybox" }]
    else []
  { Success := binErrs.isEmpty && shellErrs.isEmpty,
    Errors := binErrs ++ shellErrs,
    Warnings := symWarns }

/-! Model of cmd/rock-image/main.go. -/

/-- One entry of a CPIO archive: its stored name and node type. -/
structure ArchiveEntry where
  name : String
  isDir : Bool := false
  isSymlink : Bool := false
  linkTarget : String := ""
deriving DecidableEq

/-- Entry names emitted by `CreateCpio`'s archive step, which runs
`cd rootfsPath && find . -print | cpio -o -H newc`: `find .` prints "." and
then "./<relative path>" for every node of the tree, and `cpio -o` stores
each name exactly as read from its input, so the archive holds "." plus one
"./"-prefixed name per node. -/
def createCpioEntries (fs : Rootfs) : List ArchiveEntry :=
  ⟨".", true, false, ""⟩ ::
    fs.map (fun e => ⟨"./" ++ e.path, e.isDir, e.isSymlink, e.linkTarget⟩)

/-- Model of `verifyRootfsStructure` from cmd/rock-image/main.go: the list of
critical errors found before building (missing required binaries, missing
shell).  `CreateCpio` aborts when this list is non-empty. -/
def rootfsStructureErrors (fs : Rootfs) : List String :=
  let binErrs :=
    (RequiredBinaries.filter
      (fun b => !statExists fs (goTrimLeading b.Destination "/"))).map
      (fun b =>
        if b.Source == "rock-init" then
          b.Destination ++ " not found (rock-init must be renamed to /sbin/init!)"
        else
          b.Destination ++ " not found")
  let shellErrs :=
    if (lstatFind fs "bin/sh").isNone then
      ["/bin/sh not found (shell required)"]
    else []
  binErrs ++ shellErrs

/-- The on-disk name an archive entry extracts to when `cpio -i -d` runs
inside the scratch directory: the name is resolved relative to the scratch
directory, so a leading "./" disappears. -/
def extractName (n : String) : String :=
  if goStartsWith n "./" then ⟨n.data.drop 2⟩ else n

/-- Model of extracting an archive with `cpio -i -d` into a scratch
directory: every entry except "." (the scratch directory itself)
materialises under its resolved name. -/
def extractArchive (entries : List ArchiveEntry) : Rootfs :=
  (entries.filter (fun e => e.name != ".")).map
    (fun e => ⟨extractName e.name, e.isDir, e.isSymlink, e.linkTarget⟩)

/-- The symlink names `VerifyCpio` checks under bin/. -/
def essentialSymlinks : List String :=
  ["sh", "ls", "cat", "echo", "mount", "umount"]

/-- One step of `VerifyCpio`'s busybox-symlink loop: `Lstat` on bin/<name>;
a missing "sh" is a critical error, other missing names and wrong targets
are warnings.  Returns (errors, warnings) appended by this step. -/
def symlinkCheck (tmp : Rootfs) (s : String) : List String × List String :=
  match lstatFind tmp (goJoin "bin" s) with
  | none =>
      if s == "sh" then
        (["CRITICAL: /bin/sh missing (shell required)"], [])
      else
        ([], ["Missing symlink: /bin/" ++ s])
  | some e =>
      if e.isSymlink then
        if e.linkTarget == "busybox" || e.linkTarget == "/bin/busybox" then
          ([], [])
        else
          ([], ["/bin/" ++ s ++ " points to " ++ e.linkTarget ++
                " (expected busybox)"])
      else ([], [])

/-- The directory list `VerifyCpio` checks (absence is only a warning). -/
def cpioCriticalDirs : List String :=
  ["/proc", "/sys", "/dev", "/tmp", "/sbin", "/bin", "/usr/bin", "/config"]

/-- Model of `VerifyCpio` from cmd/rock-image/main.go, applied to the parsed
archive entries: the archive is extracted into a scratch directory, then
required binaries (errors), busybox symlinks (error for "sh", warnings
otherwise) and directories (warnings) are checked, in source order.
Returns (errors, warnings). -/
def VerifyCpioFindings (entries : List ArchiveEntry) :
    List String × List String :=
  let tmp := extractArchive entries
  let binErrs :=
    (RequiredBinaries.filter
      (fun b => !statExists tmp (goTrimLeading b.Destination "/"))).map
      (fun b => "MISSING: " ++ b.Destination)
  let symFindings := essentialSymlinks.map (symlinkCheck tmp)
  let symErrs := symFindings.flatMap (fun f => f.1)
  let symWarns := symFindings.flatMap (fun f => f.2)
  let dirWarns :=
    (cpioCriticalDirs.filter
      (fun d => !statIsDir tmp (goTrimLeading d "/"))).map
      (fun d => "Missing directory: " ++ d)
  (binErrs ++ symErrs, symWarns ++ dirWarns)

/-- Model of `VerifyCpio`'s return value: an error exactly when the critical
error list is non-empty. -/
def VerifyCpio (entries : List ArchiveEntry) : Option String :=
  if (VerifyCpioFindings entries).1.isEmpty then none
  else some "verification failed"

/-- Result of a `CreateCpio` run: the returned error (if any), the output
files left on the host (the temporary uncompressed archive is removed before
returning), and the archive entries written into the output. -/
structure CreateResult where
  err : Option String
  written : List String
  entries : List ArchiveEntry
deriving DecidableEq

/-- Model of `CreateCpio` from cmd/rock-image/main.go: Step 1 runs
`verifyRootfsStructure` and returns before anything is written when it finds
errors; Steps 2-3 emit the archive (entry names from `find . -print`) and
compress it to initrd.cpio.gz; Step 4 re-verifies the produced archive with
`VerifyCpio`. -/
def CreateCpio (fs : Rootfs) : CreateResult :=
  if !(rootfsStructureErrors fs).isEmpty then
    { err := some "rootfs verification failed: rootfs does not meet requirements",
      written := [], entries := [] }
  else
    let entries := createCpioEntries fs
    match VerifyCpio entries with
    | some e =>
        { err := some ("verification failed: " ++ e),
          written := ["initrd.cpio.gz"], entries := entries }
    | none =>
        { err := none, written := ["initrd.cpio.gz"], entries := entries }

/-! Model of the contract's kernel-parameter policy
(pkg/integration contract source, embedded at the end of
cmd/rock-verify/main.go). -/

/-- KernelParameters: required kernel command line parameters. -/
structure KernelParameters where
  InitPath : String
  RequiredFlags : List String
  DebugFlags : List String
  ProductionFlags : List String
deriving DecidableEq

/-- The kernel-parameter part of `GetContract`. -/
def contractKernelParams : KernelParameters :=
  { InitPath := KernelCmdlineInit,
    RequiredFlags := ["net.ifnames=0"],
    DebugFlags := ["console=ttyS0", "debug"],
    ProductionFlags := ["quiet", "security=selinux"] }

/-- The flag-appending loop of `GetKernelCmdline`:
`cmdline += " " + flag` for each flag. -/
def addFlags (cmdline : String) (flags : List String) : String :=
  flags.foldl (fun c f => c ++ " " ++ f) cmdline

/-- Model of `GetKernelCmdline mode`: starts from the contract init path,
appends the required flags, then the mode-specific flags (debug flags again
for any unknown mode, "default to debug mode for safety"). -/
def GetKernelCmdline (mode : String) : String :=
  let params := contractKernelParams
  let cmdline := params.InitPath
  let cmdline := addFlags cmdline params.RequiredFlags
  if mode == "debug" then addFlags cmdline params.DebugFlags
  else if mode == "production" then addFlags cmdline params.ProductionFlags
  else addFlags cmdline params.DebugFlags

/-- Model of `ValidateKernelCmdline`: errors when the critical
"init=/sbin/init" parameter is absent, then when the incorrect "rdinit="
parameter is present. -/
def ValidateKernelCmdline (cmdline : String) : Option String :=
  if !goContains cmdline "init=/sbin/init" then
    some "kernel cmdline missing required 'init=/sbin/init' parameter"
  else if goContains cmdline "rdinit=" then
    some "kernel cmdline uses 'rdinit=' which is incorrect; must use 'init='"
  else none

/-! Model of the rock-deps dependency scanner (src/unnamed/part_001).
The non-Linux branch is modelled: `scanWithLDD` (which shells out to the
host `ldd`) is skipped, exactly as when `runtime.GOOS != "linux"`. -/

/-- Dependency: one shared-library dependency record.  Zero values mirror
Go's (`""` and `0`). -/
structure Dependency where
  Name : String
  Path : String := ""
  Found : Bool := false
  Size : Int := 0
  RealPath : String := ""
deriving DecidableEq

/-- ScanResult: all dependency information for one binary. -/
structure ScanResult where
  Binary : String
  Architecture : String
  Dependencies : List Dependency
  TotalSize : Int
  IsMusl : Bool
  IsStatic : Bool
deriving DecidableEq

/-- The facts `scanBinary` reads from a successfully opened ELF file:
`arch` is `getArchitecture file.Machine`, `hasDynamicSymbols` is whether
`file.DynamicSymbols()` succeeds, `hasDynSection` is whether
`file.Section ".dynamic"` is present, `needed` is
`file.DynString elf.DT_NEEDED`. -/
structure ElfFile where
  arch : String
  hasDynamicSymbols : Bool
  hasDynSection : Bool
  needed : List String
deriving DecidableEq

/-- One library file on the host: its path, `Stat` size, and, when it is a
symlink, the `filepath.EvalSymlinks` target together with the target's
`Stat` size. -/
structure LibEntry where
  path : String
  size : Int
  symlinkTo : Option (String × Int) := none
deriving DecidableEq

/-- The host's library filesystem. -/
abbrev LibFS := List LibEntry

/-- Model of `os.Stat` on a library path. -/
def statLib (fs : LibFS) (p : String) : Option LibEntry :=
  fs.find? (fun e => e.path == p)

/-- Model of `os.Getenv`: `""` for unset variables, as in Go. -/
abbrev Env := String → String

/-- The fixed standard search directories of `getLibrarySearchPaths`. -/
def baseLibraryPaths : List String :=
  ["/lib", "/lib64", "/usr/lib", "/usr/lib64", "/usr/local/lib",
   "/usr/local/lib64"]

/-- Model of `getLibrarySearchPaths` from the dependency scanner: starts
from the standard paths, prepends the sysroot-joined copies when
ROCK_SYSROOT is set, then prepends the LD_LIBRARY_PATH entries when that is
set. -/
def getLibrarySearchPaths (env : Env) : List String :=
  let paths := baseLibraryPaths
  let paths :=
    if env "ROCK_SYSROOT" != "" then
      (baseLibraryPaths.map (fun p => goJoinAbs (env "ROCK_SYSROOT") p)) ++ paths
    else paths
  if env "LD_LIBRARY_PATH" != "" then
    goSplit (env "LD_LIBRARY_PATH") ':' ++ paths
  else paths

/-- The per-library search loop of `extractDependencies`: tries each search
directory in order and takes the first `Stat` hit (`break`), recording the
resolved path and size, and the symlink's real target and size when the hit
is a symlink. -/
def findLib (paths : List String) (fs : LibFS) (lib : String) : Dependency :=
  match paths with
  | [] => { Name := lib }
  | sp :: rest =>
      match statLib fs (goJoin sp lib) with
      | some e =>
          match e.symlinkTo with
          | some rp =>
              { Name := lib, Path := goJoin sp lib, Found := true,
                Size := rp.2, RealPath := rp.1 }
          | none =>
              { Name := lib, Path := goJoin sp lib, Found := true,
                Size := e.size }
      | none => findLib rest fs lib

/-- Model of `extractDependencies`: empty when the ELF has no ".dynamic"
section, otherwise one `Dependency` per DT_NEEDED entry, resolved against
`getLibrarySearchPaths`. -/
def extractDependencies (elf : ElfFile) (fs : LibFS) (env : Env) :
    List Dependency :=
  if !elf.hasDynSection then []
  else elf.needed.map (findLib (getLibrarySearchPaths env) fs)

/-- Model of `scanBinary` on a successfully opened ELF file of `Stat` size
`binSize`: a failing `DynamicSymbols()` classifies the binary as statically
linked with an empty dependency list; otherwise the dependencies are
extracted, the musl flag derived from their names, and the total size
accumulated. -/
def scanBinary (binaryPath : String) (elf : ElfFile) (binSize : Int)
    (fs : LibFS) (env : Env) : ScanResult :=
  if !elf.hasDynamicSymbols then
    { Binary := binaryPath, Architecture := elf.arch, Dependencies := [],
      TotalSize := 0, IsMusl := false, IsStatic := true }
  else
    let deps := extractDependencies elf fs env
    let isMusl := deps.any (fun d =>
      goContains d.Name "musl" ||
        (goContains d.Name "libc.so" && !goContains d.Name "glibc"))
    let total := binSize + deps.foldl (fun t d => t + d.Size) 0
    { Binary := binaryPath, Architecture := elf.arch, Dependencies := deps,
      TotalSize := total, IsMusl := isMusl, IsStatic := false }

/-- The satisfaction judgment of `rock-deps verify` (`cmdVerify`): a static
binary needs no dependencies; otherwise every dependency must be found. -/
def depsSatisfied (r : ScanResult) : Bool :=
  r.IsStatic || r.Dependencies.all (fun d => d.Found)

/-! Model of the Boot Validator.  The repository ships no Boot Validator
implementation under src/ (test-boot.sh only spawns QEMU interactively, with
no transcript classification), so this component is modelled from the
spec. -/

/-- Modelled from the spec: the four terminal classifications of a boot
trial. -/
inductive BootOutcome
  | Success
  | PartialSuccess
  | Failed
  | Inconclusive
deriving DecidableEq

/-- Modelled from the spec: panic / "file not found for init path" markers,
the highest-priority transcript evidence (classification (1), Failed). -/
def panicMarkers : List String :=
  ["Kernel panic", "file not found for init path"]

/-- Modelled from the spec: the init program's own identifying log lines
(classification (2), Success). -/
def successMarkers : List String :=
  ["[init] Starting rock-init"]

/-- Modelled from the spec: weaker evidence the kernel merely handed control
to the configured init path (classification (3), PartialSuccess). -/
def partialMarkers : List String :=
  ["Run /sbin/init as init process"]

/-- Whether any marker of a list occurs in the transcript. -/
def containsAny (t : String) (markers : List String) : Bool :=
  markers.any (fun m => goContains t m)

/-- Modelled from the spec: classification over the accumulated transcript,
highest priority first — panic markers give Failed before success markers
are even consulted; no marker yet means no classification. -/
def classifyTranscript (t : String) : Option BootOutcome :=
  if containsAny t panicMarkers then some BootOutcome.Failed
  else if containsAny t successMarkers then some BootOutcome.Success
  else none

/-- Outcome of one boot trial: classification, accumulated transcript, and
whether the child process was killed. -/
structure TrialResult where
  outcome : BootOutcome
  transcript : String
  childKilled : Bool
deriving DecidableEq

/-- Modelled from the spec: the controller consumes console chunks in
arrival order, classifying after each chunk.  A Failed classification kills
the child at once and reads no further output; a Success classification
ends the trial; an exhausted stream is the deadline — the child is killed
unconditionally and the final transcript yields PartialSuccess or
Inconclusive. -/
def runTrialFrom (acc : String) : List String → TrialResult
  | [] =>
      { outcome :=
          if containsAny acc partialMarkers then BootOutcome.PartialSuccess
          else BootOutcome.Inconclusive,
        transcript := acc, childKilled := true }
  | c :: cs =>
      match classifyTranscript (acc ++ c) with
      | some BootOutcome.Failed =>
          { outcome := BootOutcome.Failed, transcript := acc ++ c,
            childKilled := true }
      | some o =>
          { outcome := o, transcript := acc ++ c, childKilled := false }
      | none => runTrialFrom (acc ++ c) cs

/-- A boot trial over the arriving console chunks. -/
def runTrial (chunks : List String) : TrialResult :=
  runTrialFrom "" chunks

/-! Concrete fixtures used by several claims. -/

/-- A staged tree satisfying the full contract: the four required binaries,
the bin/sh -> busybox symlink, and every required directory. -/
def fsFull : Rootfs :=
  [⟨"sbin", true, false, ""⟩,
   ⟨"sbin/init", false, false, ""⟩,
   ⟨"usr", true, false, ""⟩,
   ⟨"usr/bin", true, false, ""⟩,
   ⟨"usr/bin/rock-manager", false, false, ""⟩,
   ⟨"usr/bin/volcano-agent", false, false, ""⟩,
   ⟨"bin", true, false, ""⟩,
   ⟨"bin/busybox", false, false, ""⟩,
   ⟨"bin/sh", false, true, "busybox"⟩,
   ⟨"proc", true, false, ""⟩,
   ⟨"sys", true, false, ""⟩,
   ⟨"dev", true, false, ""⟩,
   ⟨"tmp", true, false, ""⟩,
   ⟨"run", true, false, ""⟩,
   ⟨"var", true, false, ""⟩,
   ⟨"var/log", true, false, ""⟩,
   ⟨"config", true, false, ""⟩,
   ⟨"etc", true, false, ""⟩,
   ⟨"etc/rock", true, false, ""⟩]

/-- The full staged tree with the critical /proc directory removed. -/
def fsNoProc : Rootfs := fsFull.filter (fun e => e.path != "proc")

/-! Claim theorems. -/

/-- C1: the claim says every entry name `CreateCpio` emits is relative with
no leading "./" or "/".  The code pipes `find . -print` into `cpio -o`, so
on a fully contract-compliant staged tree the build succeeds end to end yet
records the init binary under "./sbin/init" — an entry name with the
leading "./" prefix the claim (and the repository's own FIXES-APPLIED.md)
forbids. -/
theorem C1_create_cpio_emits_dot_prefixed_names :
    (CreateCpio fsFull).err = none ∧
    ((CreateCpio fsFull).entries.map (fun e => e.name)).contains "./sbin/init"
      = true ∧
    goStartsWith "./sbin/init" "./" = true := by decide

/-- C4: `ValidateKernelCmdline` errors exactly when the command line misses
the mandatory "init=/sbin/init" token or contains the forbidden "rdinit="
token; and for every mode the line built by `GetKernelCmdline` contains the
mandatory token, never contains the forbidden token, and validates
cleanly. -/
theorem C4_kernel_cmdline_validation :
    (∀ cmdline : String,
      (ValidateKernelCmdline cmdline).isSome = true ↔
        (goContains cmdline "init=/sbin/init" = false ∨
          goContains cmdline "rdinit=" = true)) ∧
    (∀ mode : String,
      goContains (GetKernelCmdline mode) "init=/sbin/init" = true ∧
      goContains (GetKernelCmdline mode) "rdinit=" = false ∧
      ValidateKernelCmdline (GetKernelCmdline mode) = none) := by
  constructor
  · intro cmdline
    unfold ValidateKernelCmdline
    cases h1 : goContains cmdline "init=/sbin/init" <;>
      cases h2 : goContains cmdline "rdinit=" <;> simp [h1, h2]
  · intro mode
    unfold GetKernelCmdline
    by_cases hd : (mode == "debug") = true
    · simp only [hd, if_true]
      decide
    · simp only [hd, if_false]
      by_cases hp : (mode == "production") = true
      · simp only [hp, if_true]
        decide
      · simp only [hp, if_false]
        decide

/-- C6: a binary whose ELF file has no dynamic symbol table is classified
statically linked by `scanBinary`, with an empty dependency list that the
verify judgment accepts, and the scan result does not depend on the library
filesystem or on the environment-configured search paths at all. -/
theorem C6_static_binary_empty_satisfied
    (binaryPath : String) (elf : ElfFile) (binSize : Int) (fs : LibFS)
    (env : Env) (h : elf.hasDynamicSymbols = false) :
    (scanBinary binaryPath elf binSize fs env).IsStatic = true ∧
    (scanBinary binaryPath elf binSize fs env).Dependencies = [] ∧
    depsSatisfied (scanBinary binaryPath elf binSize fs env) = true ∧
    ∀ (fs' : LibFS) (env' : Env),
      scanBinary binaryPath elf binSize fs' env' =
        scanBinary binaryPath elf binSize fs env := by
  unfold scanBinary depsSatisfied
  simp [h]

/-- Witness for C6 at a concrete static ELF. -/
theorem C6_static_binary_empty_satisfied_witness :
    (ElfFile.mk "x86_64" false false []).hasDynamicSymbols = false ∧
    ((scanBinary "bin/busybox" (ElfFile.mk "x86_64" false false []) 5 []
        (fun _ => "")).IsStatic = true ∧
      (scanBinary "bin/busybox" (ElfFile.mk "x86_64" false false []) 5 []
        (fun _ => "")).Dependencies = [] ∧
      depsSatisfied (scanBinary "bin/busybox" (ElfFile.mk "x86_64" false false [])
        5 [] (fun _ => "")) = true ∧
      ∀ (fs' : LibFS) (env' : Env),
        scanBinary "bin/busybox" (ElfFile.mk "x86_64" false false []) 5 fs' env' =
          scanBinary "bin/busybox" (ElfFile.mk "x86_64" false false []) 5 []
            (fun _ => "")) :=
  ⟨by decide,
   C6_static_binary_empty_satisfied "bin/busybox"
     (ElfFile.mk "x86_64" false false []) 5 [] (fun _ => "") (by decide)⟩

/-- C3: when the pre-build verification finds a critical error (a required
contract binary missing, or the bin/sh shell missing), `CreateCpio` returns
the failure from Step 1 and leaves no output file behind. -/
theorem C3_create_cpio_fails_before_writing (fs : Rootfs)
    (h : (∃ b ∈ RequiredBinaries,
            statExists fs (goTrimLeading b.Destination "/") = false) ∨
          (lstatFind fs "bin/sh").isNone = true) :
    (CreateCpio fs).err.isSome = true ∧ (CreateCpio fs).written = [] := by
  have hne : rootfsStructureErrors fs ≠ [] := by
    unfold rootfsStructureErrors
    intro hc
    rw [List.append_eq_nil] at hc
    rcases h with ⟨b, hb, hmiss⟩ | hsh
    · have h1 := hc.1
      rw [List.map_eq_nil_iff, List.filter_eq_nil_iff] at h1
      have := h1 b hb
      simp [hmiss] at this
    · have h2 := hc.2
      rw [if_pos hsh] at h2
      exact List.cons_ne_nil _ _ h2
  have hfalse : (rootfsStructureErrors fs).isEmpty = false := by
    cases hh : rootfsStructureErrors fs with
    | nil => exact absurd hh hne
    | cons a l => rfl
  unfold CreateCpio
  rw [hfalse]
  exact ⟨rfl, rfl⟩

/-- Witness for C3 at the empty staged tree. -/
theorem C3_create_cpio_fails_before_writing_witness :
    ((∃ b ∈ RequiredBinaries,
        statExists ([] : Rootfs) (goTrimLeading b.Destination "/") = false) ∨
      (lstatFind ([] : Rootfs) "bin/sh").isNone = true) ∧
    ((CreateCpio ([] : Rootfs)).err.isSome = true ∧
      (CreateCpio ([] : Rootfs)).written = []) :=
  ⟨Or.inr (by decide),
   C3_create_cpio_fails_before_writing [] (Or.inr (by decide))⟩

/-- C5 counterexample: the claim says removing a single critical directory
such as /proc from a passing tree flips `VerifyRootfs` to failure.  It does
not: the full tree passes, and the same tree without /proc still passes —
the missing directory only produces the warning naming it. -/
theorem C5_counterexample_missing_proc_still_passes :
    (VerifyRootfs fsFull).Success = true ∧
    (VerifyRootfs fsNoProc).Success = true ∧
    "Missing directory: /proc" ∈ (VerifyRootfs fsNoProc).Warnings := by decide

/-- C5 (amended): `VerifyRootfs` succeeds exactly when every required binary
destination and the shell path exist — missing directories never flip the
result, they only append the warning naming that directory. -/
theorem C5_directories_warn_only (fs : Rootfs) :
    ((VerifyRootfs fs).Success = true ↔
      ((∀ b ∈ RequiredBinaries,
          statExists fs (goTrimLeading b.Destination "/") = true) ∧
        statExists fs (goTrimLeading ShellPath "/") = true)) ∧
    (∀ d ∈ RequiredDirectories,
        statExists fs (goTrimLeading d "/") = false →
        ("Missing directory: " ++ d) ∈ (VerifyRootfs fs).Warnings) := by
  constructor
  · unfold VerifyRootfs
    simp only [List.isEmpty_iff, Bool.and_eq_true, List.map_eq_nil_iff,
      List.filter_eq_nil_iff, Bool.not_eq_true]
    constructor
    · intro hok
      refine ⟨fun b hb => by simpa using hok.1 b hb, ?_⟩
      by_contra hsh
      rw [Bool.not_eq_true] at hsh
      rw [hsh] at hok
      simp at hok
    · intro hok
      refine ⟨fun b hb => by simpa using hok.1 b hb, ?_⟩
      rw [hok.2]
      simp
  · intro d hd hmiss
    unfold VerifyRootfs
    simp only []
    apply List.mem_append_left
    apply List.mem_map_of_mem
    rw [List.mem_filter]
    exact ⟨hd, by rw [hmiss]; rfl⟩

/-- Witness for C5: on the tree missing /proc, the amended theorem yields
the warning naming /proc. -/
theorem C5_directories_warn_only_witness :
    "Missing directory: /proc" ∈ (VerifyRootfs fsNoProc).Warnings :=
  (C5_directories_warn_only fsNoProc).2 "/proc" (by decide) (by decide)

/-- C7: dependency resolution takes the first match in search order — when
no directory listed before `d1` holds the declared library but `d1` does,
`extractDependencies` records the path under `d1`, whatever comes later in
the list (in particular when a later directory also holds the library). -/
theorem C7_first_search_dir_wins
    (elf : ElfFile) (fs : LibFS) (env : Env) (lib : String)
    (pre : List String) (d1 : String) (rest : List String)
    (hdyn : elf.hasDynSection = true) (hmem : lib ∈ elf.needed)
    (hpaths : getLibrarySearchPaths env = pre ++ d1 :: rest)
    (hpre : ∀ p ∈ pre, statLib fs (goJoin p lib) = none)
    (hd1 : (statLib fs (goJoin d1 lib)).isSome = true) :
    ∃ dep ∈ extractDependencies elf fs env,
      dep.Name = lib ∧ dep.Found = true ∧ dep.Path = goJoin d1 lib := by
  refine ⟨findLib (getLibrarySearchPaths env) fs lib, ?_, ?_⟩
  · unfold extractDependencies
    rw [hdyn]
    exact List.mem_map_of_mem _ hmem
  · rw [hpaths]
    clear hpaths
    induction pre with
    | nil =>
        rw [List.nil_append]
        unfold findLib
        rcases hopt : statLib fs (goJoin d1 lib) with _ | e
        · rw [hopt] at hd1
          simp at hd1
        · rcases hsym : e.symlinkTo with _ | rp <;> simp [hsym]
    | cons p ps ih =>
        rw [List.cons_append]
        unfold findLib
        rw [hpre p (List.mem_cons_self p ps)]
        exact ih (fun q hq => hpre q (List.mem_cons_of_mem p hq))

/-- Witness for C7: libc.so present under both /lib64 and /usr/lib; with
the default search order /lib, /lib64, /usr/lib, ... the /lib64 copy is
recorded. -/
theorem C7_first_search_dir_wins_witness :
    ∃ dep ∈ extractDependencies (ElfFile.mk "x86_64" true true ["libc.so"])
        [LibEntry.mk "/lib64/libc.so" 3 none,
         LibEntry.mk "/usr/lib/libc.so" 4 none] (fun _ => ""),
      dep.Name = "libc.so" ∧ dep.Found = true ∧
        dep.Path = goJoin "/lib64" "libc.so" :=
  C7_first_search_dir_wins (ElfFile.mk "x86_64" true true ["libc.so"])
    [LibEntry.mk "/lib64/libc.so" 3 none, LibEntry.mk "/usr/lib/libc.so" 4 none]
    (fun _ => "") "libc.so" ["/lib"] "/lib64"
    ["/usr/lib", "/usr/lib64", "/usr/local/lib", "/usr/local/lib64"]
    (by decide) (by decide) (by decide) (by decide) (by decide)

/-- C8 counterexample: the claim says the resolver reads no ambient
environment, so runs under different environments give the same report.
They do not: with the library only under /opt/x, an empty environment
reports it missing while LD_LIBRARY_PATH=/opt/x reports it found. -/
theorem C8_counterexample_env_changes_report :
    scanBinary "b" (ElfFile.mk "x86_64" true true ["libfoo.so"]) 10
        [LibEntry.mk "/opt/x/libfoo.so" 7 none] (fun _ => "") ≠
      scanBinary "b" (ElfFile.mk "x86_64" true true ["libfoo.so"]) 10
        [LibEntry.mk "/opt/x/libfoo.so" 7 none]
        (fun k => if k == "LD_LIBRARY_PATH" then "/opt/x" else "") := by decide

/-- C8 (amended): the resolver's search paths are read from the
ROCK_SYSROOT and LD_LIBRARY_PATH environment variables, and only from them:
two runs whose environments agree on those two variables produce the same
dependency report, whatever else differs. -/
theorem C8_report_depends_only_on_search_env
    (binaryPath : String) (elf : ElfFile) (binSize : Int) (fs : LibFS)
    (env₁ env₂ : Env)
    (h1 : env₁ "ROCK_SYSROOT" = env₂ "ROCK_SYSROOT")
    (h2 : env₁ "LD_LIBRARY_PATH" = env₂ "LD_LIBRARY_PATH") :
    scanBinary binaryPath elf binSize fs env₁ =
      scanBinary binaryPath elf binSize fs env₂ := by
  have hp : getLibrarySearchPaths env₁ = getLibrarySearchPaths env₂ := by
    unfold getLibrarySearchPaths
    rw [h1, h2]
  unfold scanBinary extractDependencies
  rw [hp]

/-- Witness for C8: two different environments agreeing on the two search
variables give identical reports. -/
theorem C8_report_depends_only_on_search_env_witness :
    scanBinary "b" (ElfFile.mk "x86_64" true true ["libfoo.so"]) 10
        [LibEntry.mk "/lib/libfoo.so" 7 none] (fun _ => "") =
      scanBinary "b" (ElfFile.mk "x86_64" true true ["libfoo.so"]) 10
        [LibEntry.mk "/lib/libfoo.so" 7 none]
        (fun k => if k == "HOME" then "/root" else "") :=
  C8_report_depends_only_on_search_env "b"
    (ElfFile.mk "x86_64" true true ["libfoo.so"]) 10
    [LibEntry.mk "/lib/libfoo.so" 7 none] (fun _ => "")
    (fun k => if k == "HOME" then "/root" else "") (by decide) (by decide)

/-- C9 (modelled from the spec — the Boot Validator has no implementation
under src/): panic markers outrank success markers, so a transcript holding
both classifies Failed; and once a trial has classified Failed the child is
killed at once — appending any further console output changes nothing about
the trial's result. -/
theorem C9_panic_priority_and_immediate_kill :
    (∀ t : String, containsAny t panicMarkers = true →
        containsAny t successMarkers = true →
        classifyTranscript t = some BootOutcome.Failed) ∧
    (∀ chunks rest : List String,
        (runTrial chunks).outcome = BootOutcome.Failed →
        runTrial (chunks ++ rest) = runTrial chunks ∧
        (runTrial chunks).childKilled = true) := by
  constructor
  · intro t hp _
    unfold classifyTranscript
    rw [hp]
    rfl
  · have key : ∀ (chunks : List String) (acc : String) (rest : List String),
        (runTrialFrom acc chunks).outcome = BootOutcome.Failed →
        runTrialFrom acc (chunks ++ rest) = runTrialFrom acc chunks ∧
        (runTrialFrom acc chunks).childKilled = true := by
      intro chunks
      induction chunks with
      | nil =>
          intro acc rest h
          unfold runTrialFrom at h
          rcases hpm : containsAny acc partialMarkers <;> rw [hpm] at h <;>
            simp at h
      | cons c cs ih =>
          intro acc rest h
          rw [List.cons_append]
          unfold runTrialFrom at h ⊢
          rcases hc : classifyTranscript (acc ++ c) with _ | o
          · simp only [hc] at h ⊢
            exact ih (acc ++ c) rest h
          · rcases o <;> simp_all
    intro chunks rest h
    exact key chunks "" rest h

/-- Witness for C9: a transcript with both a panic and a success marker
classifies Failed, and after a panic chunk the trial ignores later
output and reports the child killed. -/
theorem C9_panic_priority_and_immediate_kill_witness :
    classifyTranscript
        "[init] Starting rock-init as PID 1 -- Kernel panic - not syncing"
      = some BootOutcome.Failed ∧
    runTrial (["Kernel panic - not syncing"] ++ ["[init] Starting rock-init"])
      = runTrial ["Kernel panic - not syncing"] ∧
    (runTrial ["Kernel panic - not syncing"]).childKilled = true :=
  ⟨C9_panic_priority_and_immediate_kill.1
      "[init] Starting rock-init as PID 1 -- Kernel panic - not syncing"
      (by decide) (by decide),
   (C9_panic_priority_and_immediate_kill.2 ["Kernel panic - not syncing"]
      ["[init] Starting rock-init"] (by decide)).1,
   (C9_panic_priority_and_immediate_kill.2 ["Kernel panic - not syncing"]
      ["[init] Starting rock-init"] (by decide)).2⟩

/-- A string starts with any string it is an append-extension of. -/
theorem goStartsWith_append (pre s : String) :
    goStartsWith (pre ++ s) pre = true := by
  unfold goStartsWith
  rw [String.data_append]
  exact List.isPrefixOf_iff_prefix.mpr (List.prefix_append _ _)

/-- A "./"-prefixed name is never the bare "." entry. -/
theorem dotted_name_ne_dot (s : String) : ("./" ++ s) ≠ "." := by
  intro h
  have hd := congrArg String.data h
  rw [String.data_append] at hd
  simp at hd

/-- Extraction strips a leading "./" from an entry name. -/
theorem extractName_dotted (s : String) : extractName ("./" ++ s) = s := by
  unfold extractName
  rw [if_pos (goStartsWith_append "./" s)]
  have hd : ("./" ++ s).data = '.' :: '/' :: s.data := by
    rw [String.data_append]
    rfl
  rw [hd]
  rfl

/-- Extraction leaves a name without a leading "./" unchanged. -/
theorem extractName_plain (s : String) (h : goStartsWith s "./" = false) :
    extractName s = s := by
  unfold extractName
  rw [h]
  rfl

/-- Rewrites one archive entry name to its "./"-prefixed form. -/
def dotPrefixEntry (e : ArchiveEntry) : ArchiveEntry :=
  { e with name := "./" ++ e.name }

/-- C2 counterexample: an archive recording every contract path under a
"./"-prefixed name ("./sbin/init" instead of "sbin/init").  The claim says
the post-build self-verification must fail on it; in fact `VerifyCpio`
reports no error and `VerifyImage` reports success. -/
def dottedArchive : List ArchiveEntry :=
  [⟨"./sbin", true, false, ""⟩,
   ⟨"./sbin/init", false, false, ""⟩,
   ⟨"./usr/bin/rock-manager", false, false, ""⟩,
   ⟨"./usr/bin/volcano-agent", false, false, ""⟩,
   ⟨"./bin/busybox", false, false, ""⟩,
   ⟨"./bin/sh", false, true, "busybox"⟩]

/-- C2 counterexample: both self-verification paths report success, not
failure, on the "./sbin/init"-style archive. -/
theorem C2_counterexample_dotted_archive_passes :
    VerifyCpio dottedArchive = none ∧
    (VerifyImage (dottedArchive.map (fun e => e.name))).Success = true := by
  decide

/-- C2 (amended): the post-build self-verification is insensitive to the
"./" prefix — `VerifyCpio` extracts the archive into a scratch directory,
where "./sbin/init" materialises at the same place as "sbin/init", so
prefixing every entry name with "./" changes neither the findings nor the
returned error. -/
theorem C2_self_verification_insensitive_to_dot_prefix
    (entries : List ArchiveEntry)
    (h : ∀ e ∈ entries, e.name ≠ "." ∧ goStartsWith e.name "./" = false) :
    VerifyCpioFindings (entries.map dotPrefixEntry) =
      VerifyCpioFindings entries ∧
    VerifyCpio (entries.map dotPrefixEntry) = VerifyCpio entries := by
  have hx : extractArchive (entries.map dotPrefixEntry) =
      extractArchive entries := by
    unfold extractArchive
    rw [List.filter_map]
    have hall : List.filter
        ((fun e => e.name != ".") ∘ dotPrefixEntry) entries = entries := by
      rw [List.filter_eq_self]
      intro a _
      exact bne_iff_ne.mpr (dotted_name_ne_dot a.name)
    rw [hall]
    have hkeep : List.filter (fun e => e.name != ".") entries = entries := by
      rw [List.filter_eq_self]
      intro a ha
      exact bne_iff_ne.mpr (h a ha).1
    rw [hkeep, List.map_map]
    apply List.map_congr_left
    intro a ha
    show (⟨extractName ("./" ++ a.name), a.isDir, a.isSymlink, a.linkTarget⟩
        : FSEntry) = ⟨extractName a.name, a.isDir, a.isSymlink, a.linkTarget⟩
    rw [extractName_dotted, extractName_plain a.name (h a ha).2]
  have hf : VerifyCpioFindings (entries.map dotPrefixEntry) =
      VerifyCpioFindings entries := by
    unfold VerifyCpioFindings
    rw [hx]
  refine ⟨hf, ?_⟩
  unfold VerifyCpio
  rw [hf]

/-- Witness for C2's amended theorem at a one-entry archive. -/
theorem C2_self_verification_insensitive_witness :
    VerifyCpioFindings ([⟨"sbin/init", false, false, ""⟩].map dotPrefixEntry) =
      VerifyCpioFindings [⟨"sbin/init", false, false, ""⟩] ∧
    VerifyCpio ([⟨"sbin/init", false, false, ""⟩].map dotPrefixEntry) =
      VerifyCpio [⟨"sbin/init", false, false, ""⟩] :=
  C2_self_verification_insensitive_to_dot_prefix
    [⟨"sbin/init", false, false, ""⟩] (by decide)

/-- An entry name in plain relative form: empty, or starting with neither a
slash nor a dot. -/
def relPlain (r : String) : Bool :=
  match r.data with
  | [] => true
  | c :: _ => !(c == '/' || c == '.')

/-- A contract path of the form the image checks use: absolute, and its
first component starts with neither a slash nor a dot. -/
def absPlain (p : String) : Bool :=
  match p.data with
  | c0 :: c :: _ => c0 == '/' && !(c == '/' || c == '.')
  | _ => false

/-- Trimming a leading "." from a plain relative name changes nothing. -/
theorem trimDot_of_rel (r : String) (hr : relPlain r = true) :
    goTrimLeading r "." = r := by
  have hsw : goStartsWith r "." = false := by
    unfold goStartsWith
    unfold relPlain at hr
    rcases hrd : r.data with _ | ⟨c1, rt⟩
    · rfl
    · rw [hrd] at hr
      simp only [Bool.not_eq_true', Bool.or_eq_false_iff] at hr
      simp [List.isPrefixOf]
      intro hcon
      rw [hcon] at hr
      simp at hr
  unfold goTrimLeading
  rw [hsw]
  rfl

/-- Trimming a leading "." turns "./name" into "/name". -/
theorem trimDot_dotted (r : String) :
    goTrimLeading ("./" ++ r) "." = "/" ++ r := by
  unfold goTrimLeading goStartsWith
  have hd : ("./" ++ r).data = '.' :: '/' :: r.data := by
    rw [String.data_append]
    rfl
  rw [hd]
  simp [List.isPrefixOf]
  apply String.ext
  rw [String.data_append]
  rfl

/-- Trimming a leading "." leaves "/name" unchanged. -/
theorem trimDot_slashed (r : String) :
    goTrimLeading ("/" ++ r) "." = "/" ++ r := by
  unfold goTrimLeading goStartsWith
  have hd : ("/" ++ r).data = '/' :: r.data := by
    rw [String.data_append]
    rfl
  rw [hd]
  simp [List.isPrefixOf]

/-- The single-entry satisfaction of `checkPathExists` through the
`VerifyImage` file map is the same for "name", "./name" and "/name"
whenever the checked contract path is absolute and plain. -/
theorem entry_sat_forms (r p : String) (hr : relPlain r = true)
    (hp : absPlain p = true) :
    checkPathExists (imageFiles ["./" ++ r]) p
      = checkPathExists (imageFiles [r]) p ∧
    checkPathExists (imageFiles ["/" ++ r]) p
      = checkPathExists (imageFiles [r]) p := by
  rcases hpd : p.data with _ | ⟨c0, _ | ⟨c, t⟩⟩
  · unfold absPlain at hp
    rw [hpd] at hp
    simp at hp
  · unfold absPlain at hp
    rw [hpd] at hp
    simp at hp
  · unfold absPlain at hp
    rw [hpd] at hp
    simp at hp
    obtain ⟨rfl, hc1, hc2⟩ := hp
    have hts : goTrimLeading p "/" = ⟨c :: t⟩ := by
      unfold goTrimLeading goStartsWith
      rw [hpd]
      simp [List.isPrefixOf]
    have hdp : ("." ++ p).data = '.' :: '/' :: c :: t := by
      rw [String.data_append, hpd]
      rfl
    have hpe : p = ⟨'/' :: c :: t⟩ := String.ext hpd
    have hds : ('.' : Char) ≠ '/' := by decide
    have hsd : ('/' : Char) ≠ '.' := by decide
    unfold imageFiles checkPathExists
    simp only [List.flatMap_cons, List.flatMap_nil, List.append_nil]
    rw [trimDot_of_rel r hr, trimDot_dotted, trimDot_slashed]
    rcases hrd : r.data with _ | ⟨c1, rt⟩
    · constructor <;>
        · rw [Bool.eq_iff_iff]
          simp only [Bool.or_eq_true, List.contains_cons, List.contains_nil,
            Bool.or_false, beq_iff_eq, String.ext_iff, String.data_append,
            hpd, hdp, hts, hrd]
          simp [hc1, hc2, hds, hsd]
    · unfold relPlain at hr
      rw [hrd] at hr
      simp only [Bool.not_eq_true', Bool.or_eq_false_iff,
        beq_eq_false_iff_ne] at hr
      obtain ⟨hr1, hr2⟩ := hr
      constructor <;>
        · rw [Bool.eq_iff_iff]
          simp only [Bool.or_eq_true, List.contains_cons, List.contains_nil,
            Bool.or_false, beq_iff_eq, String.ext_iff, String.data_append,
            hpd, hdp, hts, hrd]
          simp [hc1, hc2, hds, hsd, hr1, hr2]
          tauto

/-- The `VerifyImage` file map distributes over appended name lists. -/
theorem imageFiles_append (a b : List String) :
    imageFiles (a ++ b) = imageFiles a ++ imageFiles b :=
  List.flatMap_append a b _

/-- `checkPathExists` over an appended file map is the disjunction of the
checks over the parts. -/
theorem checkPathExists_append (a b : List String) (p : String) :
    checkPathExists (a ++ b) p
      = (checkPathExists a p || checkPathExists b p) := by
  unfold checkPathExists
  rw [Bool.eq_iff_iff]
  simp [List.mem_append]
  tauto

/-- The `checkPathExists` outcome for a contract path is unchanged when one
archive entry name in the middle of the list is rewritten between its
"name", "./name" and "/name" forms. -/
theorem check_entry_forms (pre post : List String) (r p : String)
    (hr : relPlain r = true) (hp : absPlain p = true) :
    checkPathExists (imageFiles (pre ++ ["./" ++ r] ++ post)) p
      = checkPathExists (imageFiles (pre ++ [r] ++ post)) p ∧
    checkPathExists (imageFiles (pre ++ ["/" ++ r] ++ post)) p
      = checkPathExists (imageFiles (pre ++ [r] ++ post)) p := by
  obtain ⟨h1, h2⟩ := entry_sat_forms r p hr hp
  constructor
  · rw [imageFiles_append, imageFiles_append, checkPathExists_append,
      checkPathExists_append, imageFiles_append, imageFiles_append,
      checkPathExists_append, checkPathExists_append, h1]
  · rw [imageFiles_append, imageFiles_append, checkPathExists_append,
      checkPathExists_append, imageFiles_append, imageFiles_append,
      checkPathExists_append, checkPathExists_append, h2]

/-- Every required binary destination is an absolute plain contract path. -/
theorem absPlain_binaries :
    ∀ b ∈ RequiredBinaries, absPlain b.Destination = true := by decide

/-- Every busybox symlink check path is an absolute plain contract path. -/
theorem absPlain_symlinks :
    ∀ s ∈ BusyboxSymlinks, absPlain (goJoin "/bin" s) = true := by decide

/-- The shell path is an absolute plain contract path. -/
theorem absPlain_shell : absPlain ShellPath = true := by decide

/-- Two entry-name lists whose file maps satisfy the same absolute plain
contract paths produce the same `VerifyImage` result. -/
theorem VerifyImage_congr (n1 n2 : List String)
    (h : ∀ p, absPlain p = true →
      checkPathExists (imageFiles n1) p = checkPathExists (imageFiles n2) p) :
    VerifyImage n1 = VerifyImage n2 := by
  have e1 : RequiredBinaries.filter
        (fun b => !checkPathExists (imageFiles n1) b.Destination)
      = RequiredBinaries.filter
        (fun b => !checkPathExists (imageFiles n2) b.Destination) :=
    List.filter_congr
      (fun b hb => by rw [h b.Destination (absPlain_binaries b hb)])
  have e2 : BusyboxSymlinks.filter
        (fun s => !checkPathExists (imageFiles n1) (goJoin "/bin" s))
      = BusyboxSymlinks.filter
        (fun s => !checkPathExists (imageFiles n2) (goJoin "/bin" s)) :=
    List.filter_congr
      (fun s hs => by rw [h (goJoin "/bin" s) (absPlain_symlinks s hs)])
  have e3 : checkPathExists (imageFiles n1) ShellPath
      = checkPathExists (imageFiles n2) ShellPath :=
    h ShellPath absPlain_shell
  unfold VerifyImage
  dsimp only
  rw [e1, e2, e3]

/-- C10: `VerifyImage` is insensitive to the path-prefix form of entry
names — rewriting any one archive entry between the forms "name",
"./name" and "/name" leaves the whole `VerificationResult` unchanged. -/
theorem C10_verify_image_prefix_insensitive
    (pre post : List String) (r : String) (hr : relPlain r = true) :
    VerifyImage (pre ++ ["./" ++ r] ++ post)
      = VerifyImage (pre ++ [r] ++ post) ∧
    VerifyImage (pre ++ ["/" ++ r] ++ post)
      = VerifyImage (pre ++ [r] ++ post) := by
  constructor
  · exact VerifyImage_congr _ _
      (fun p hp => (check_entry_forms pre post r p hr hp).1)
  · exact VerifyImage_congr _ _
      (fun p hp => (check_entry_forms pre post r p hr hp).2)

/-- Witness for C10 at a concrete archive. -/
theorem C10_verify_image_prefix_insensitive_witness :
    VerifyImage ([] ++ ["./" ++ "sbin/init"] ++ ["bin/sh"])
      = VerifyImage ([] ++ ["sbin/init"] ++ ["bin/sh"]) ∧
    VerifyImage ([] ++ ["/" ++ "sbin/init"] ++ ["bin/sh"])
      = VerifyImage ([] ++ ["sbin/init"] ++ ["bin/sh"]) :=
  C10_verify_image_prefix_insensitive [] ["bin/sh"] "sbin/init" (by decide)

end RockOS
